import Mathlib

/-!
# Verification of the cache-man asynchronous memoization layer

Shallow embedding of the `cache-man` repository (Cache controller,
in-memory TTL storage backend, argument checkers and the public
`CacheMan.create` entry point), together with proofs and refutations of
the specified properties.

The embedding models JavaScript values with an explicit truthiness
function, times as integers (milliseconds), and the single-threaded
promise semantics as an interleaving of three kinds of atomic steps:
a whole synchronous `get()` call, a `clear()` call, and the settlement
of an in-flight upstream fetch (whose queued continuations run as
consecutive microtasks).
-/

set_option maxHeartbeats 1000000

/-- A JavaScript value, as far as the cache code can observe it:
`null`, `undefined`, booleans, numbers, strings, and opaque objects
(identified by a tag; objects and functions are always truthy). -/
inductive JSVal where
  | vNull
  | vUndefined
  | vBool (b : Bool)
  | vNum (n : Int)
  | vStr (s : String)
  | vObj (id : Nat)
deriving DecidableEq, Repr

open JSVal

/-- JavaScript truthiness (`!!x`). -/
def truthy : JSVal → Bool
  | vNull => false
  | vUndefined => false
  | vBool b => b
  | vNum n => n != 0
  | vStr s => s != ""
  | vObj _ => true

/-- JavaScript nullishness: `null` or `undefined` (reading a property
such as `.then` off a nullish value throws a `TypeError`). -/
def nullish : JSVal → Bool
  | vNull => true
  | vUndefined => true
  | _ => false

/-- The in-memory storage backend state, from
`src/src/MemoryStorageBackend.js`: a closed-over `storage` slot
(initially `null`), a `lastAccessTime` (initially `0`), and the
immutable `timeout` (TTL) fixed at creation. -/
structure Backend where
  storage : JSVal
  lastAccessTime : Int
  timeout : Int
deriving DecidableEq, Repr

/-- `MemoryStorageBackend.create(timeout)`'s closure state right after
creation: `storage = null`, `lastAccessTime = 0`. -/
def Backend.create (timeout : Int) : Backend :=
  { storage := vNull, lastAccessTime := 0, timeout := timeout }

/-- The backend's `get`: `if (!storage || lastAccessTime + timeout <
Date.now()) return null; else return storage;`.  `now` is the value of
the `Date.now()` call made inside the backend. -/
def Backend.get (b : Backend) (now : Int) : JSVal :=
  if !truthy b.storage || decide (b.lastAccessTime + b.timeout < now) then vNull
  else b.storage

/-- The backend's `set(data, accessTime)`: overwrite both fields
unconditionally. -/
def Backend.set (b : Backend) (data : JSVal) (accessTime : Int) : Backend :=
  { b with storage := data, lastAccessTime := accessTime }

/-- The sentinel-based in-memory backend of `src/unnamed/part_003`: each
instance allocates its own private `NO_RESULT` object and compares by
identity (`storage === NO_RESULT`).  The sentinel is modelled by `none`;
a caller-supplied payload is `some v`. -/
structure SentinelBackend where
  storage : Option JSVal
  lastAccessTime : Int
  timeout : Int
deriving DecidableEq, Repr

/-- `part_003`'s `get`: `if (storage === NO_RESULT || lastAccessTime +
timeout < Date.now()) return NO_RESULT; else return storage;`. -/
def SentinelBackend.get (b : SentinelBackend) (now : Int) : Option JSVal :=
  if b.storage.isNone || decide (b.lastAccessTime + b.timeout < now) then none
  else b.storage

/-- `part_003`'s `set(data, accessTime)`: overwrite both fields. -/
def SentinelBackend.set (b : SentinelBackend) (data : Option JSVal)
    (accessTime : Int) : SentinelBackend :=
  { b with storage := data, lastAccessTime := accessTime }

/-- One upstream fetch started by `_newGet`: the `accessTime` passed in
(the `now` captured at the entry of the `get()` call that started it),
the arguments the upstream resolver was invoked with, and whether the
fetch has settled yet. -/
structure FetchRec where
  accessTime : Int
  args : List JSVal
  settled : Bool
deriving DecidableEq, Repr

/-- The controller state built by `createCache` in `src/src/Cache.js`:
the backend closure, the `_work` slot (`none` = `null`), and the record
of every upstream fetch started so far (`fetches.length` counts upstream
invocations; an unsettled record is an outstanding upstream call). -/
structure CacheState where
  backend : Backend
  work : Option Nat
  fetches : List FetchRec
deriving DecidableEq, Repr

/-- Controller state right after `createCache`: fresh backend, `_work =
null`, no upstream invocation yet. -/
def CacheState.init (timeout : Int) : CacheState :=
  { backend := Backend.create timeout, work := none, fetches := [] }

/-- What the upstream resolver returns synchronously when invoked:
either an object with a truthy `.then` (a promise, settled later by a
`settle` step), or a plain (non-thenable) value returned synchronously. -/
inductive UpstreamRet where
  | thenable
  | syncVal (v : JSVal)
deriving DecidableEq, Repr

/-- The observable outcome of one `get()` call's synchronous segment:
resolved immediately from cache, attached to fetch `fid` (resolving or
rejecting with that fetch's eventual outcome), or rejected with the
`TypeError` thrown by reading `.then` off a nullish upstream return. -/
inductive GetResult where
  | hit (v : JSVal)
  | joined (fid : Nat)
  | typeError
deriving DecidableEq, Repr

/-- The eventual outcome of a fetch: its promise fulfils with a value or
rejects with an error. -/
inductive Outcome where
  | value (v : JSVal)
  | error (e : JSVal)
deriving DecidableEq, Repr

/-- `_newGet`'s fetch start on the non-nullish path: invoke the upstream
with `args`, record the new outstanding fetch, and store its chain in
`_work`. The new fetch's id is the number of upstream invocations so
far. -/
def startFetch (s : CacheState) (tE : Int) (args : List JSVal) :
    CacheState × GetResult :=
  ({ s with fetches := s.fetches ++ [{ accessTime := tE, args := args, settled := false }],
            work := some s.fetches.length },
   GetResult.joined s.fetches.length)

/-- One whole `get(...args)` call (the synchronous executor of the
promise it returns), from `src/src/Cache.js`:
`const now = Date.now()` gives `tE`; `_backend.get(_timeout)` samples
`Date.now()` again inside the backend, giving `tB` (the clock is
monotone, so `tE ≤ tB` wherever the step is used); `if (!cached)` the
call goes to `_get(now, ...args)`: join `_work` if set, else `_newGet`
invokes the upstream — whose synchronous return `u`, when a plain
nullish value, makes `potentialPromise.then` throw a `TypeError` that
rejects the returned promise before `_work` or the backend is touched. -/
def getStep (s : CacheState) (tE tB : Int) (args : List JSVal) (u : UpstreamRet) :
    CacheState × GetResult :=
  let cached := s.backend.get tB
  if truthy cached then (s, GetResult.hit cached)
  else
    match s.work with
    | some fid => (s, GetResult.joined fid)
    | none =>
      match u with
      | UpstreamRet.thenable => startFetch s tE args
      | UpstreamRet.syncVal v =>
        if nullish v then (s, GetResult.typeError)
        else startFetch s tE args

/-- Settlement of fetch `fid`'s promise with a fulfilled `result`:
`_newGet`'s `.then` runs `_backend.set(result, accessTime)`, then
`_get`'s `.then` runs `_work = null` (unconditionally — it is the
continuation of that particular chain). -/
def settleSuccess (s : CacheState) (fid : Nat) (v : JSVal) : CacheState :=
  match s.fetches[fid]? with
  | some f =>
    { s with backend := s.backend.set v f.accessTime,
             work := none,
             fetches := s.fetches.set fid { f with settled := true } }
  | none => s

/-- Settlement of fetch `fid`'s promise with a rejection: `_newGet`'s
`.catch` runs `_backend.set(null, 0)` and rethrows, then `_get`'s
`.catch` runs `_work = null` and rethrows; every caller attached to the
chain is rejected with the same error. -/
def settleFailure (s : CacheState) (fid : Nat) : CacheState :=
  match s.fetches[fid]? with
  | some f =>
    { s with backend := s.backend.set vNull 0,
             work := none,
             fetches := s.fetches.set fid { f with settled := true } }
  | none => s

/-- `clear()`: `_backend.set(null, 0); _work = null;`. -/
def clearStep (s : CacheState) : CacheState :=
  { s with backend := s.backend.set vNull 0, work := none }

/-- Promise delivery: a caller whose `get()` attached to fetch `fid`
receives exactly that fetch's settlement outcome (the chain
`.then(resolve).catch(reject)` passes values and errors through
unaltered). -/
def deliver (fid : Nat) (o : Outcome) : GetResult → Option Outcome
  | GetResult.joined f => if f = fid then some o else none
  | _ => none

/-- A scheduled `get()` call: entry-time clock sample `tE`, the backend's
internal clock sample `tB`, the supplied arguments, and the upstream's
synchronous behaviour should this call start a fetch. -/
structure GetCall where
  tE : Int
  tB : Int
  args : List JSVal
  uret : UpstreamRet
deriving DecidableEq, Repr

/-- Run a list of `get()` calls back-to-back (no settlement, no clear in
between), collecting each call's result. -/
def runGets : CacheState → List GetCall → CacheState × List GetResult
  | s, [] => (s, [])
  | s, c :: rest =>
    let p := getStep s c.tE c.tB c.args c.uret
    let q := runGets p.1 rest
    (q.1, p.2 :: q.2)

/-- The shape of a candidate storage backend as the construction-time
checkers can observe it: a nullish value, a plain object (with or
without `get`/`set` members and with some `timeout` member value), or an
array of candidates. -/
inductive BackendVal where
  | nullish
  | obj (hasGet hasSet : Bool) (timeout : JSVal)
  | arr (bs : List BackendVal)

/-- `Checker.resolver` from `src/src/Checker.js`: `!!resolver && typeof
resolver === FUNCTION_TYPE`.  A resolver is modelled by the one bit the
check observes: whether it is a callable function. -/
def Checker.resolver (callable : Bool) : Bool := callable

/-- `Checker.timeout` from `src/src/Checker.js`: `!!t && typeof t ===
NUMBER_TYPE && t > 0 && t < Number.MAX_SAFE_INTEGER`. -/
def Checker.timeout : JSVal → Bool
  | vNum n => truthy (vNum n) && decide (0 < n) && decide (n < 2 ^ 53 - 1)
  | _ => false

mutual

/-- `Checker.backend` from `src/src/Checker.js`: nullish values fail;
arrays are valid when every element is; an object needs truthy `get`
and `set` members and a `timeout` passing `Checker.timeout`. -/
def Checker.backend : BackendVal → Bool
  | BackendVal.nullish => false
  | BackendVal.arr bs => Checker.backendList bs
  | BackendVal.obj hasGet hasSet t => hasGet && hasSet && Checker.timeout t

/-- The `for (const b of backend)` loop of `Checker.backend` over an
array: all elements must pass. -/
def Checker.backendList : List BackendVal → Bool
  | [] => true
  | b :: rest => Checker.backend b && Checker.backendList rest

end

/-- Error message of `Validator.resolver` (the `Validator` revision
imported by `src/src/Cache.js`). -/
def msgResolver : String := "upstream must be a callback (...) -> Promise"

/-- Error message of `Validator.timeout`. -/
def msgTimeout : String := "timeout must be greater than 0 and less than 2^53 - 1: "

/-- Error message of `Validator.backend`. -/
def msgBackend : String := "backend must be an object with get(), set(*, number), and timeout"

/-- What `createCache` returns when construction succeeds: the validated
timeout and backend configuration of the new controller. -/
structure Config where
  timeout : JSVal
  backend : BackendVal

/-- The construction-time validation performed by `createCache` in
`src/src/Cache.js`: `Validator.resolver`, then `Validator.backend`, then
`Validator.timeout`; each throws a descriptive `Error` when its
`Checker` test fails, otherwise the controller is built. -/
def createCache (resolverCallable : Bool) (timeoutInMillis : JSVal)
    (backend : BackendVal) : Except String Config :=
  if !Checker.resolver resolverCallable then Except.error msgResolver
  else if !Checker.backend backend then Except.error msgBackend
  else if !Checker.timeout timeoutInMillis then Except.error msgTimeout
  else Except.ok { timeout := timeoutInMillis, backend := backend }

/-- `MemoryStorageBackend.create(timeout)` at the validation level
(`src/unnamed/part_003` and `src/src/MemoryStorageBackend.js` both begin
with `timeout = Validator.timeout(timeout)`): an invalid timeout throws,
otherwise the frozen backend object (with `get`, `set` and the validated
`timeout`) is returned. -/
def MemoryStorageBackend.createVal (timeout : JSVal) : Except String BackendVal :=
  if !Checker.timeout timeout then Except.error msgTimeout
  else Except.ok (BackendVal.obj true true timeout)

/-- The public entry point `CacheMan.create(upstream, options)` from
`src/unnamed/part_002`: an options timeout failing `Checker.timeout` is
replaced by `DEFAULT_TIMEOUT` (2 * 60 * 1000); an options backend
failing `Checker.backend` is replaced by `MemoryStorageBackend.create()`
— invoked with no argument, i.e. `timeout = undefined`; then
`createCache(upstream, timeoutInMillis, storageBackend)`. -/
def CacheMan.create (resolverCallable : Bool) (optsTimeout : JSVal)
    (optsBackend : BackendVal) : Except String Config :=
  let timeoutInMillis :=
    if Checker.timeout optsTimeout then optsTimeout else vNum (2 * 60 * 1000)
  match (if Checker.backend optsBackend then Except.ok optsBackend
         else MemoryStorageBackend.createVal vUndefined) with
  | Except.error e => Except.error e
  | Except.ok storageBackend =>
    createCache resolverCallable timeoutInMillis storageBackend

/-- Modelled from the spec's words (for comparison with `getStep`): a
`get()` call in which the freshness check is evaluated with the single
`now` timestamp captured at call entry — i.e. the backend's internal
clock sample coincides with the entry sample. -/
def getSpecSingleNow (s : CacheState) (t : Int) (args : List JSVal)
    (u : UpstreamRet) : CacheState × GetResult :=
  getStep s t t args u

/-- States of one controller reachable by interleaving whole `get()`
calls (with a monotone clock, `tE ≤ tB`) and settlements of outstanding
fetches — the `clear()` operation deliberately excluded.  A settlement
step is only available for a fetch that has started and not settled yet
(a promise settles once). -/
inductive ReachNC : CacheState → Prop where
  | init (timeout : Int) : ReachNC (CacheState.init timeout)
  | get {s : CacheState} (tE tB : Int) (args : List JSVal) (u : UpstreamRet) :
      ReachNC s → tE ≤ tB → ReachNC (getStep s tE tB args u).1
  | settleS {s : CacheState} (fid : Nat) (f : FetchRec) (v : JSVal) :
      ReachNC s → s.fetches[fid]? = some f → f.settled = false →
      ReachNC (settleSuccess s fid v)
  | settleF {s : CacheState} (fid : Nat) (f : FetchRec) :
      ReachNC s → s.fetches[fid]? = some f → f.settled = false →
      ReachNC (settleFailure s fid)

/-- The single-flight invariant on a controller state: when `_work` is
unset every fetch ever started has settled, and when `_work` holds a
chain that chain's fetch is the unique outstanding upstream call. -/
def singleFlightInv (s : CacheState) : Prop :=
  match s.work with
  | none => ∀ (j : Nat) (g : FetchRec), s.fetches[j]? = some g → g.settled = true
  | some fid =>
    (∃ f, s.fetches[fid]? = some f ∧ f.settled = false) ∧
    ∀ (j : Nat) (g : FetchRec), s.fetches[j]? = some g → g.settled = false → j = fid

/-- Concrete controller state used to exercise the falsy-value edge: a
zero was written to the backend at time 0, the TTL is 1000, no work is
pending. -/
def zeroCachedState : CacheState :=
  { backend := { storage := vNum 0, lastAccessTime := 0, timeout := 1000 },
    work := none, fetches := [] }

/-- Concrete controller state for the clock-resample edge: the string
"A" was written at time 0 with TTL 10. -/
def freshAtTenState : CacheState :=
  { backend := { storage := vStr "A", lastAccessTime := 0, timeout := 10 },
    work := none, fetches := [] }

/-- State after a first `get()` started a fetch from a freshly created
controller (TTL 1000): `_work` holds fetch 0, which is outstanding. -/
def fetchingState : CacheState :=
  (getStep (CacheState.init 1000) 0 0 [] UpstreamRet.thenable).1

/-- `fetchingState` after a `clear()`. -/
def clearedFetchingState : CacheState := clearStep fetchingState

/-- `clearedFetchingState` after a second `get()` (clock has moved to 1). -/
def secondFetchState : CacheState :=
  (getStep clearedFetchingState 1 1 [] UpstreamRet.thenable).1

-- Sanity checks on the embedding (concrete executions).
example : (Backend.create 1000).get 0 = vNull := by decide
example : ((Backend.create 1000).set (vStr "A") 0).get 500 = vStr "A" := by decide
example : ((Backend.create 1000).set (vStr "A") 0).get 1001 = vNull := by decide
example :
    (getStep (CacheState.init 1000) 0 0 [vStr "x"] UpstreamRet.thenable).2 =
      GetResult.joined 0 := by decide

/-- A truthy answer from the backend is exactly the stored payload. -/
lemma Backend.get_eq_storage (b : Backend) (t : Int)
    (h : truthy (b.get t) = true) : b.get t = b.storage := by
  unfold Backend.get at h ⊢
  cases hc : (!truthy b.storage || decide (b.lastAccessTime + b.timeout < t)) with
  | false => simp [hc]
  | true => rw [hc] at h; simp [truthy] at h

/-- A `get()` step either leaves the controller state untouched (cache
hit, join of the existing chain, or the nullish-`TypeError` path) or —
only when `_work` was unset — starts exactly one new fetch, recorded at
index `s.fetches.length` with the call's entry time and arguments, and
stores it in `_work`. -/
lemma getStep_state_cases (s : CacheState) (tE tB : Int) (args : List JSVal)
    (u : UpstreamRet) :
    (getStep s tE tB args u).1 = s ∨
    (s.work = none ∧
      getStep s tE tB args u =
        (CacheState.mk s.backend (some s.fetches.length)
          (s.fetches ++ [FetchRec.mk tE args false]),
         GetResult.joined s.fetches.length)) := by
  cases hT : truthy (s.backend.get tB) with
  | true => left; simp [getStep, hT]
  | false =>
    cases hw : s.work with
    | some fid => left; simp [getStep, hT, hw]
    | none =>
      cases u with
      | thenable => right; exact ⟨rfl, by simp [getStep, hT, hw, startFetch]⟩
      | syncVal v =>
        cases hn : nullish v with
        | true => left; simp [getStep, hT, hw, hn]
        | false => right; exact ⟨rfl, by simp [getStep, hT, hw, hn, startFetch]⟩

/-- C2. Freshness window of the memory storage backend, for both
bundled revisions: after `set(v, t0)` with a non-empty `v` on a backend
with TTL `T`, `get` returns `v` at every query time `q` with
`t0 ≤ q ≤ t0 + T` and returns the EMPTY marker at every `q > t0 + T` —
a value is never reported fresh once the current time exceeds the last
write time plus the TTL.  In `src/src/MemoryStorageBackend.js` the
marker is `null` and a value counts as present when truthy; in
`src/unnamed/part_003` the marker is the per-instance `NO_RESULT`
sentinel and the window holds for every non-sentinel value. -/
theorem freshness_window (v : JSVal) (t0 T q : Int) :
    (∀ b : Backend, b.timeout = T → truthy v = true →
      (t0 ≤ q → q ≤ t0 + T → (b.set v t0).get q = v) ∧
      (t0 + T < q → (b.set v t0).get q = vNull)) ∧
    (∀ sb : SentinelBackend, sb.timeout = T →
      (t0 ≤ q → q ≤ t0 + T → (sb.set (some v) t0).get q = some v) ∧
      (t0 + T < q → (sb.set (some v) t0).get q = none)) := by
  constructor
  · intro b hT hv
    constructor
    · intro _ h2
      have hfresh : ¬ (t0 + T < q) := not_lt.mpr h2
      simp [Backend.set, Backend.get, hv, hT, hfresh]
    · intro h
      simp [Backend.set, Backend.get, hv, hT, h]
  · intro sb hT
    constructor
    · intro _ h2
      have hfresh : ¬ (t0 + T < q) := not_lt.mpr h2
      simp [SentinelBackend.set, SentinelBackend.get, hT, hfresh]
    · intro h
      simp [SentinelBackend.set, SentinelBackend.get, hT, h]

/-- Witness for `freshness_window` at `T = 1000`, `t0 = 5`, queried at
`800` (inside the window) and `1006` (outside it). -/
theorem freshness_window_witness :
    ((Backend.create 1000).set (vStr "A") 5).get 800 = vStr "A" ∧
    ((Backend.create 1000).set (vStr "A") 5).get 1006 = vNull ∧
    ((SentinelBackend.mk none 0 1000).set (some (vNum 0)) 5).get 800 =
      some (vNum 0) :=
  ⟨((freshness_window (vStr "A") 5 1000 800).1 (Backend.create 1000) rfl rfl).1
      (by decide) (by decide),
   ((freshness_window (vStr "A") 5 1000 1006).1 (Backend.create 1000) rfl rfl).2
      (by decide),
   ((freshness_window (vNum 0) 5 1000 800).2 (SentinelBackend.mk none 0 1000) rfl).1
      (by decide) (by decide)⟩

/-- C4 (counterexample). A fresh value `0` is stored in the backend
(written at time 0, TTL 1000, queried at 500, well inside the window),
yet a `get()` call invokes the upstream resolver: a fetch record is
created and the caller is attached to it instead of being resolved with
the cached `0`.  The claim's quantification over falsy values such as
`0` fails. -/
theorem cache_hit_short_circuit_cex :
    (500 : Int) ≤ zeroCachedState.backend.lastAccessTime +
      zeroCachedState.backend.timeout ∧
    (getStep zeroCachedState 500 500 [] UpstreamRet.thenable).1.fetches.length = 1 ∧
    (getStep zeroCachedState 500 500 [] UpstreamRet.thenable).2 =
      GetResult.joined 0 := by decide

/-- C4 (amended). Cache-hit short-circuit for truthy values: whenever
the backend answers a `get()` call's freshness query with a truthy
value, the call resolves immediately with the stored value, the upstream
resolver is not invoked and no in-flight state is created (the
controller state is unchanged); the backend only ever answers truthily
with the stored payload itself.  Falsy stored values (`null`, `0`,
`false`, `""`) are treated as cache misses by `if (!cached)`. -/
theorem cache_hit_short_circuit (s : CacheState) (tE tB : Int)
    (args : List JSVal) (u : UpstreamRet)
    (h : truthy (s.backend.get tB) = true) :
    getStep s tE tB args u = (s, GetResult.hit s.backend.storage) := by
  have hs := Backend.get_eq_storage s.backend tB h
  have h2 : truthy s.backend.storage = true := hs ▸ h
  simp [getStep, hs, h2]

/-- Witness for `cache_hit_short_circuit`: a fresh `"A"` is served from
cache without touching the upstream. -/
theorem cache_hit_short_circuit_witness :
    truthy (freshAtTenState.backend.get 5) = true ∧
    getStep freshAtTenState 5 5 [] UpstreamRet.thenable =
      (freshAtTenState, GetResult.hit (vStr "A")) :=
  ⟨by decide, cache_hit_short_circuit freshAtTenState 5 5 [] UpstreamRet.thenable (by decide)⟩

/-- C6 (counterexample). In the FETCHING state (an upstream fetch
outstanding, `_work` holding its chain), `clear()` does change the
in-flight slot's occupancy: `fetchingState` has `_work = some 0` with
fetch 0 outstanding, and after `clear()` the slot is unset, so the
controller has moved from FETCHING back to IDLE as far as the in-flight
handle is concerned. -/
theorem clear_frame_cex :
    fetchingState.work = some 0 ∧
    fetchingState.fetches[0]? = some (FetchRec.mk 0 [] false) ∧
    (clearStep fetchingState).work = none := by decide

/-- C6 (amended). `clear()` resets the backend data to the empty state
(`null` with a zero timestamp, preserving the TTL) and also resets the
in-flight handle to its unset value, moving a FETCHING controller back
to IDLE; the record of started fetches (and hence the fetches
themselves, which are not cancelled) is untouched. -/
theorem clear_frame (s : CacheState) :
    (clearStep s).backend.storage = vNull ∧
    (clearStep s).backend.lastAccessTime = 0 ∧
    (clearStep s).backend.timeout = s.backend.timeout ∧
    (clearStep s).work = none ∧
    (clearStep s).fetches = s.fetches := by
  simp [clearStep, Backend.set]

/-- C7. No cancellation on clear: a fetch that is outstanding stays
recorded (unsettled) through a `clear()`, and its settlement actions
still land afterwards — on success the fetched value is written to the
backend together with the fetch-start timestamp (reviving the entry the
caller cleared), on failure the empty state with a zero timestamp is
written. -/
theorem clear_does_not_cancel (s : CacheState) (fid : Nat) (f : FetchRec)
    (hf : s.fetches[fid]? = some f) :
    (clearStep s).fetches[fid]? = some f ∧
    (∀ v : JSVal,
      (settleSuccess (clearStep s) fid v).backend.storage = v ∧
      (settleSuccess (clearStep s) fid v).backend.lastAccessTime = f.accessTime) ∧
    (settleFailure (clearStep s) fid).backend.storage = vNull ∧
    (settleFailure (clearStep s) fid).backend.lastAccessTime = 0 := by
  have hcf : (clearStep s).fetches[fid]? = some f := by simpa [clearStep] using hf
  refine ⟨hcf, fun v => ?_, ?_⟩
  · simp [settleSuccess, hcf, Backend.set]
  · simp [settleFailure, hcf, Backend.set]

/-- Witness for `clear_does_not_cancel`: the fetch started by
`fetchingState`'s first `get()` still writes `"B"` with its fetch-start
timestamp `0` after a `clear()`. -/
theorem clear_does_not_cancel_witness :
    (settleSuccess (clearStep fetchingState) 0 (vStr "B")).backend.storage =
      vStr "B" ∧
    (settleSuccess (clearStep fetchingState) 0 (vStr "B")).backend.lastAccessTime = 0 :=
  (clear_does_not_cancel fetchingState 0 (FetchRec.mk 0 [] false) (by decide)).2.1
    (vStr "B")

/-- C10. Nullish-return edge of promise coercion: on a cache miss with
no fetch in flight, an upstream resolver returning `null` or `undefined`
synchronously makes the `.then` read throw a `TypeError`; the `get()`
promise rejects with that `TypeError`, nothing is cached, and the whole
controller state — backend value, write timestamp and `_work` — is left
unchanged (in particular no empty-state write happens on this path). -/
theorem nullish_upstream_rejects (s : CacheState) (tE tB : Int)
    (args : List JSVal) (v : JSVal) (hw : s.work = none)
    (hmiss : truthy (s.backend.get tB) = false) (hv : nullish v = true) :
    getStep s tE tB args (UpstreamRet.syncVal v) = (s, GetResult.typeError) := by
  simp [getStep, hmiss, hw, hv]

/-- Witness for `nullish_upstream_rejects`: a fresh controller whose
upstream returns `null` synchronously. -/
theorem nullish_upstream_rejects_witness :
    getStep (CacheState.init 1000) 0 0 [vStr "x"] (UpstreamRet.syncVal vNull) =
      (CacheState.init 1000, GetResult.typeError) :=
  nullish_upstream_rejects (CacheState.init 1000) 0 0 [vStr "x"] vNull rfl
    (by decide) (by decide)

/-- C3. Failure path of `get()`: when the upstream promise of fetch
`fid` rejects with error `e`, the controller writes the empty state with
a zero timestamp to the backend, resets the in-flight marker to unset,
and every caller joined to that fetch is rejected with the very same
error `e` (passed through the rethrowing `catch` chain unaltered); a
`get()` issued afterwards (before any other write) therefore misses the
cache and starts a new upstream invocation instead of serving stale
data. -/
theorem failure_path (s : CacheState) (fid : Nat) (f : FetchRec) (e : JSVal)
    (hf : s.fetches[fid]? = some f) :
    (settleFailure s fid).backend.storage = vNull ∧
    (settleFailure s fid).backend.lastAccessTime = 0 ∧
    (settleFailure s fid).work = none ∧
    deliver fid (Outcome.error e) (GetResult.joined fid) =
      some (Outcome.error e) ∧
    (∀ tE tB : Int, ∀ args : List JSVal,
      (getStep (settleFailure s fid) tE tB args UpstreamRet.thenable).1.fetches.length =
        (settleFailure s fid).fetches.length + 1) := by
  refine ⟨?_, ?_, ?_, ?_, ?_⟩
  · simp [settleFailure, hf, Backend.set]
  · simp [settleFailure, hf, Backend.set]
  · simp [settleFailure, hf]
  · simp [deliver]
  · intro tE tB args
    have hmiss : truthy ((settleFailure s fid).backend.get tB) = false := by
      simp [settleFailure, hf, Backend.set, Backend.get, truthy]
    have hw : (settleFailure s fid).work = none := by simp [settleFailure, hf]
    simp [getStep, hmiss, hw, startFetch]

/-- Witness for `failure_path`: the fetch started by `fetchingState`'s
first `get()` rejects with `Error("boom")`; the backend is cleared, the
marker unset, the joined caller rejected with the same error, and the
next `get()` makes a second upstream invocation. -/
theorem failure_path_witness :
    (settleFailure fetchingState 0).backend.storage = vNull ∧
    (settleFailure fetchingState 0).work = none ∧
    (getStep (settleFailure fetchingState 0) 2 2 [] UpstreamRet.thenable).1.fetches.length =
      (settleFailure fetchingState 0).fetches.length + 1 :=
  ⟨(failure_path fetchingState 0 (FetchRec.mk 0 [] false) (vObj 7) (by decide)).1,
   (failure_path fetchingState 0 (FetchRec.mk 0 [] false) (vObj 7) (by decide)).2.2.1,
   (failure_path fetchingState 0 (FetchRec.mk 0 [] false) (vObj 7) (by decide)).2.2.2.2
     2 2 []⟩

/-- While `_work` holds a chain and the backend keeps answering the
freshness query falsily, every `get()` call attaches to the existing
chain, ignoring its own arguments and leaving the state untouched. -/
lemma runGets_all_join (calls : List GetCall) (s : CacheState) (fid : Nat)
    (hw : s.work = some fid)
    (hmiss : ∀ d ∈ calls, truthy (s.backend.get d.tB) = false) :
    runGets s calls = (s, calls.map fun _ => GetResult.joined fid) := by
  induction calls with
  | nil => simp [runGets]
  | cons c rest ih =>
    have hc : truthy (s.backend.get c.tB) = false :=
      hmiss c (List.mem_cons_self c rest)
    have hstep : getStep s c.tE c.tB c.args c.uret = (s, GetResult.joined fid) := by
      simp [getStep, hc, hw]
    have hrest := ih (fun d hd => hmiss d (List.mem_cons_of_mem c hd))
    simp [runGets, hstep, hrest]

/-- C1. Single-flight joining: if `N ≥ 1` `get()` calls arrive
back-to-back while no fresh cached value exists (each call's freshness
query comes back falsy) and no fetch is in flight, the upstream resolver
is invoked exactly once — one fetch record is appended, carrying the
first call's entry time and arguments; the later callers' arguments are
ignored — all `N` calls attach to that single fetch, and each of them is
delivered exactly that fetch's eventual outcome, value or error. -/
theorem single_flight_join (s : CacheState) (c : GetCall) (rest : List GetCall)
    (hw : s.work = none)
    (hmiss : ∀ d ∈ c :: rest, truthy (s.backend.get d.tB) = false)
    (hup : ∀ d ∈ c :: rest, d.uret = UpstreamRet.thenable) :
    (runGets s (c :: rest)).1.fetches =
      s.fetches ++ [FetchRec.mk c.tE c.args false] ∧
    (runGets s (c :: rest)).1.work = some s.fetches.length ∧
    (runGets s (c :: rest)).2 =
      (c :: rest).map (fun _ => GetResult.joined s.fetches.length) ∧
    ∀ (o : Outcome), ∀ r ∈ (runGets s (c :: rest)).2,
      deliver s.fetches.length o r = some o := by
  have hc : truthy (s.backend.get c.tB) = false :=
    hmiss c (List.mem_cons_self c rest)
  have hcu : c.uret = UpstreamRet.thenable := hup c (List.mem_cons_self c rest)
  have hstep : getStep s c.tE c.tB c.args c.uret =
      (CacheState.mk s.backend (some s.fetches.length)
        (s.fetches ++ [FetchRec.mk c.tE c.args false]),
       GetResult.joined s.fetches.length) := by
    simp [getStep, hc, hw, hcu, startFetch]
  have hrest : runGets
      (CacheState.mk s.backend (some s.fetches.length)
        (s.fetches ++ [FetchRec.mk c.tE c.args false])) rest =
      (CacheState.mk s.backend (some s.fetches.length)
        (s.fetches ++ [FetchRec.mk c.tE c.args false]),
       rest.map fun _ => GetResult.joined s.fetches.length) :=
    runGets_all_join rest _ s.fetches.length rfl
      (fun d hd => hmiss d (List.mem_cons_of_mem c hd))
  refine ⟨?_, ?_, ?_, ?_⟩
  · simp [runGets, hstep, hrest]
  · simp [runGets, hstep, hrest]
  · simp [runGets, hstep, hrest]
  · intro o r hr
    simp only [runGets, hstep, hrest] at hr
    simp only [List.mem_cons, List.mem_map] at hr
    rcases hr with h | ⟨d, _, h⟩
    · rw [h]; simp [deliver]
    · rw [← h]; simp [deliver]

/-- Witness for `single_flight_join`: two back-to-back `get()` calls on
a fresh controller both attach to fetch 0. -/
theorem single_flight_join_witness :
    (runGets (CacheState.init 1000)
      [GetCall.mk 0 0 [vStr "a"] UpstreamRet.thenable,
       GetCall.mk 1 1 [vStr "b"] UpstreamRet.thenable]).2 =
      [GetResult.joined 0, GetResult.joined 0] :=
  (single_flight_join (CacheState.init 1000)
    (GetCall.mk 0 0 [vStr "a"] UpstreamRet.thenable)
    [GetCall.mk 1 1 [vStr "b"] UpstreamRet.thenable]
    rfl (by decide) (by decide)).2.2.1

/-- The single-flight invariant holds at construction. -/
lemma singleFlightInv_init (t : Int) : singleFlightInv (CacheState.init t) := by
  intro j g hj
  simp [CacheState.init] at hj

/-- A `get()` step preserves the single-flight invariant. -/
lemma singleFlightInv_get (s : CacheState) (h : singleFlightInv s)
    (tE tB : Int) (args : List JSVal) (u : UpstreamRet) :
    singleFlightInv (getStep s tE tB args u).1 := by
  rcases getStep_state_cases s tE tB args u with heq | ⟨hw, heq⟩
  · rw [heq]; exact h
  · have h1 : (getStep s tE tB args u).1 =
        CacheState.mk s.backend (some s.fetches.length)
          (s.fetches ++ [FetchRec.mk tE args false]) := by rw [heq]
    simp only [singleFlightInv, hw] at h
    rw [h1]
    simp only [singleFlightInv]
    refine ⟨⟨FetchRec.mk tE args false, List.getElem?_concat_length _ _, rfl⟩, ?_⟩
    intro j g hj hg
    by_cases hlt : j < s.fetches.length
    · rw [List.getElem?_append_left hlt] at hj
      exact absurd (h j g hj) (by simp [hg])
    · have hle : s.fetches.length ≤ j := Nat.le_of_not_lt hlt
      rcases Nat.eq_or_lt_of_le hle with heq2 | hlt2
      · exact heq2.symm
      · rw [List.getElem?_append_right hle] at hj
        rw [List.getElem?_eq_none (by simp; omega)] at hj
        exact absurd hj (by simp)

/-- Settling the unique outstanding fetch (marking it settled and
unsetting `_work`, whatever the backend write was) restores the
invariant's `IDLE` branch. -/
lemma singleFlightInv_settled_update (s : CacheState) (h : singleFlightInv s)
    (fid : Nat) (f : FetchRec) (hf : s.fetches[fid]? = some f)
    (hns : f.settled = false) (b2 : Backend) :
    singleFlightInv (CacheState.mk b2 none
      (s.fetches.set fid (FetchRec.mk f.accessTime f.args true))) := by
  cases hw : s.work with
  | none =>
    simp only [singleFlightInv, hw] at h
    exact absurd (h fid f hf) (by simp [hns])
  | some fid0 =>
    simp only [singleFlightInv, hw] at h
    obtain ⟨-, huniq⟩ := h
    have hfe : fid = fid0 := huniq fid f hf hns
    subst hfe
    intro j g hj
    by_cases hje : j = fid
    · subst hje
      have hjlt : j < s.fetches.length := by
        by_contra hc
        rw [List.getElem?_eq_none (Nat.le_of_not_lt hc)] at hf
        exact absurd hf (by simp)
      rw [List.getElem?_set_eq_of_lt _ hjlt] at hj
      cases hj
      rfl
    · rw [List.getElem?_set_ne (fun hh => hje hh.symm)] at hj
      cases hgs : g.settled with
      | true => rfl
      | false => exact absurd (huniq j g hj hgs) hje

/-- A success settlement of the unique outstanding fetch preserves the
single-flight invariant. -/
lemma singleFlightInv_settleS (s : CacheState) (h : singleFlightInv s)
    (fid : Nat) (f : FetchRec) (v : JSVal) (hf : s.fetches[fid]? = some f)
    (hns : f.settled = false) : singleFlightInv (settleSuccess s fid v) := by
  have hset : settleSuccess s fid v =
      CacheState.mk (s.backend.set v f.accessTime) none
        (s.fetches.set fid (FetchRec.mk f.accessTime f.args true)) := by
    simp [settleSuccess, hf]
  rw [hset]
  exact singleFlightInv_settled_update s h fid f hf hns _

/-- A failure settlement of the unique outstanding fetch preserves the
single-flight invariant. -/
lemma singleFlightInv_settleF (s : CacheState) (h : singleFlightInv s)
    (fid : Nat) (f : FetchRec) (hf : s.fetches[fid]? = some f)
    (hns : f.settled = false) : singleFlightInv (settleFailure s fid) := by
  have hset : settleFailure s fid =
      CacheState.mk (s.backend.set vNull 0) none
        (s.fetches.set fid (FetchRec.mk f.accessTime f.args true)) := by
    simp [settleFailure, hf]
  rw [hset]
  exact singleFlightInv_settled_update s h fid f hf hns _

/-- C5 (counterexample). The claim quantifies over interleavings that
include `clear()` calls, and `clear()` breaks it: after a `get()` starts
fetch 0 and a `clear()` runs, the in-flight handle is unset while fetch
0 is still outstanding (the handle is not non-null for the whole span to
settlement), and a further `get()` then starts fetch 1, so two upstream
calls are outstanding on one controller at once. -/
theorem single_flight_handle_invariant_cex :
    clearedFetchingState.work = none ∧
    clearedFetchingState.fetches[0]? = some (FetchRec.mk 0 [] false) ∧
    secondFetchState.fetches.length = 2 ∧
    secondFetchState.fetches[0]? = some (FetchRec.mk 0 [] false) ∧
    secondFetchState.fetches[1]? = some (FetchRec.mk 1 [] false) := by decide

/-- C5 (amended). At-most-one-outstanding-fetch invariant in the absence
of `clear()`: in every state reachable by interleaving `get()` calls and
fetch settlements (no `clear()`), the in-flight handle is non-null
exactly while an upstream call is outstanding — when `_work` is unset
every fetch has settled, and when `_work` is set it holds the unique
outstanding fetch.  A `clear()` during a fetch unsets the handle and
allows a second concurrent upstream call (see the counterexample). -/
theorem single_flight_handle_invariant (s : CacheState) (h : ReachNC s) :
    singleFlightInv s := by
  induction h with
  | init t => exact singleFlightInv_init t
  | get tE tB args u _ _ ih => exact singleFlightInv_get _ ih tE tB args u
  | settleS fid f v _ hf hns ih => exact singleFlightInv_settleS _ ih fid f v hf hns
  | settleF fid f _ hf hns ih => exact singleFlightInv_settleF _ ih fid f hf hns

/-- Witness for `single_flight_handle_invariant` at the state reached by
one `get()` from a fresh controller. -/
theorem single_flight_handle_invariant_witness :
    singleFlightInv fetchingState :=
  single_flight_handle_invariant fetchingState
    (ReachNC.get 0 0 [] UpstreamRet.thenable (ReachNC.init 1000) (le_refl 0))

/-- Inversion of a fetch start: if `startFetch` produced a joined
caller, the new state and fetch id are exactly the appended record. -/
lemma startFetch_inv (s : CacheState) (tE : Int) (args : List JSVal)
    (s2 : CacheState) (fid : Nat)
    (h : startFetch s tE args = (s2, GetResult.joined fid)) :
    s2 = CacheState.mk s.backend (some s.fetches.length)
      (s.fetches ++ [FetchRec.mk tE args false]) ∧
    fid = s.fetches.length := by
  rw [Prod.ext_iff] at h
  obtain ⟨h1, h2⟩ := h
  simp only [startFetch] at h1 h2
  refine ⟨h1.symm ▸ rfl, ?_⟩
  cases h2
  rfl

/-- C9 (counterexample). With the stored `"A"` written at time 0 and
TTL 10, a `get()` whose entry sample is `now = 10` (the value is still
fresh at call entry: `0 + 10 < 10` is false) but whose backend-internal
`Date.now()` sample is 11 takes the miss path and invokes the upstream —
whereas the claimed single-`now` evaluation (`getSpecSingleNow`, the
freshness check read at the entry timestamp) resolves the call
immediately from cache.  The freshness check is thus not evaluated with
the timestamp captured at call entry. -/
theorem single_now_cex :
    truthy (freshAtTenState.backend.get 10) = true ∧
    (getSpecSingleNow freshAtTenState 10 [] UpstreamRet.thenable).2 =
      GetResult.hit (vStr "A") ∧
    (getStep freshAtTenState 10 11 [] UpstreamRet.thenable).2 =
      GetResult.joined 0 ∧
    (getStep freshAtTenState 10 11 [] UpstreamRet.thenable).1.fetches.length = 1 := by
  decide

/-- C9 (amended). The `now` captured at a `get()` call's entry is used
consistently through the call's resolution path in this sense: a fetch
the call starts records that entry timestamp, and on upstream success
the value is written to the backend with exactly that timestamp.  The
freshness check, however, is evaluated with a second `Date.now()` sample
taken inside the backend, which may be later than the entry sample (see
the counterexample); the two computations agree whenever no clock
advance happens between the samples (`getSpecSingleNow` is `getStep`
with both samples equal). -/
theorem single_now_write_timestamp (s : CacheState) (tE tB : Int)
    (args : List JSVal) (u : UpstreamRet) (s2 : CacheState) (fid : Nat)
    (hw : s.work = none)
    (hstep : getStep s tE tB args u = (s2, GetResult.joined fid)) :
    s2.fetches[fid]? = some (FetchRec.mk tE args false) ∧
    ∀ v : JSVal, (settleSuccess s2 fid v).backend.lastAccessTime = tE := by
  have key : s2 = CacheState.mk s.backend (some s.fetches.length)
      (s.fetches ++ [FetchRec.mk tE args false]) ∧ fid = s.fetches.length := by
    simp only [getStep, hw] at hstep
    split at hstep
    · exact absurd (congrArg Prod.snd hstep) (by simp)
    · cases u with
      | thenable => exact startFetch_inv s tE args s2 fid hstep
      | syncVal v =>
        have hstep2 : (if nullish v = true then (s, GetResult.typeError)
            else startFetch s tE args) = (s2, GetResult.joined fid) := hstep
        rcases hn : nullish v with _ | _
        · rw [hn] at hstep2
          simp only [Bool.false_eq_true, if_false] at hstep2
          exact startFetch_inv s tE args s2 fid hstep2
        · rw [hn] at hstep2
          simp only [if_true] at hstep2
          exact absurd (congrArg Prod.snd hstep2) (by simp)
  obtain ⟨hs2, hfid⟩ := key
  subst hs2; subst hfid
  have hget : (s.fetches ++ [FetchRec.mk tE args false])[s.fetches.length]? =
      some (FetchRec.mk tE args false) := List.getElem?_concat_length _ _
  refine ⟨hget, fun v => ?_⟩
  simp [settleSuccess, hget, Backend.set]

/-- Witness for `single_now_write_timestamp`: the fetch started at entry
time 0 writes its success value with timestamp 0. -/
theorem single_now_write_timestamp_witness :
    fetchingState.fetches[0]? = some (FetchRec.mk 0 [] false) ∧
    (settleSuccess fetchingState 0 (vStr "B")).backend.lastAccessTime = 0 :=
  ⟨(single_now_write_timestamp (CacheState.init 1000) 0 0 [] UpstreamRet.thenable
      fetchingState 0 rfl rfl).1,
   (single_now_write_timestamp (CacheState.init 1000) 0 0 [] UpstreamRet.thenable
      fetchingState 0 rfl rfl).2 (vStr "B")⟩

/-- C8 (counterexample). A construction attempt through the public
`CacheMan.create` entry point (`src/unnamed/part_002`) with the invalid
timeout `0`, a callable resolver and a valid backend does not fail: the
timeout fails `Checker.timeout`, is silently replaced by the default
`2 * 60 * 1000`, and a controller configured with that default is
produced. -/
theorem fail_fast_construction_cex :
    Checker.timeout (vNum 0) = false ∧
    CacheMan.create true (vNum 0) (BackendVal.obj true true (vNum 1000)) =
      Except.ok (Config.mk (vNum (2 * 60 * 1000))
        (BackendVal.obj true true (vNum 1000))) := by
  constructor
  · rfl
  · rfl

/-- C8 (amended). Construction through `CacheMan.create`
(`src/unnamed/part_002`): an invalid timeout does not fail construction
— with a callable resolver and a valid backend it is silently replaced
by the default `2 * 60 * 1000` ms and a controller is produced.
Construction does fail synchronously, with no controller produced, for
a non-callable resolver (given a valid backend), and for an invalid or
missing backend — the latter because the default-backend path calls
`MemoryStorageBackend.create()` with no timeout argument, whose own
validation rejects `undefined`. -/
theorem fail_fast_construction (t : JSVal) (b b2 : BackendVal) (r : Bool)
    (hb : Checker.backend b = true) (ht : Checker.timeout t = false)
    (hb2 : Checker.backend b2 = false) :
    CacheMan.create true t b = Except.ok (Config.mk (vNum (2 * 60 * 1000)) b) ∧
    CacheMan.create false t b = Except.error msgResolver ∧
    CacheMan.create r t b2 = Except.error msgTimeout := by
  have hdt : Checker.timeout (vNum 120000) = true := by decide
  have hun : Checker.timeout vUndefined = false := rfl
  refine ⟨?_, ?_, ?_⟩
  · simp [CacheMan.create, hb, ht, createCache, Checker.resolver, hdt]
  · simp [CacheMan.create, hb, ht, createCache, Checker.resolver, hdt]
  · simp [CacheMan.create, hb2, ht, MemoryStorageBackend.createVal, hun]

/-- Witness for `fail_fast_construction` at timeout `0`, a valid
backend, and the nullish backend for the failing leg. -/
theorem fail_fast_construction_witness :
    CacheMan.create true (vNum 0) (BackendVal.arr [BackendVal.obj true true (vNum 7)]) =
      Except.ok (Config.mk (vNum (2 * 60 * 1000))
        (BackendVal.arr [BackendVal.obj true true (vNum 7)])) ∧
    CacheMan.create false (vNum 0) (BackendVal.arr [BackendVal.obj true true (vNum 7)]) =
      Except.error msgResolver ∧
    CacheMan.create true (vNum 0) BackendVal.nullish = Except.error msgTimeout :=
  fail_fast_construction (vNum 0) (BackendVal.arr [BackendVal.obj true true (vNum 7)])
    BackendVal.nullish true rfl rfl rfl
